import Mathlib

/-!
Verification of the tunnel-mesh orchestration logic of flexiManage
(`backend/deviceLogic/tunnels.js`).

The JavaScript source is shallowly embedded: the MongoDB collections
(`tunnels`, `tunnelids`) and the external job queue become explicit
fields of a `Store` record, and every mongoose `findOneAndUpdate`
becomes an explicit first-match-and-update traversal of a list.
Asynchronous promise chains are modelled by their eventual effect:
state-changing continuations run in program order, and a promise that
was already launched before a synchronous `throw` still performs its
effects (nothing in the source cancels in-flight promises).

External collaborators that are not part of the repository are
parameters of the model:
* `routerVersionsCompatible` (module `versioning`) is an arbitrary
  boolean predicate `compatible`;
* `generateRandomKeys` (module `utils/random-key`) is an arbitrary
  key source `genKeys`;
* the job-delivery system (`deviceQueues.addJob`) always accepts a job,
  modelled as appending the job to `Store.jobs`.
-/

namespace Flexi

/-- A device network interface (subset of the device schema used by
`tunnels.js`): `isAssigned`, `type`, `IPv4`, `PublicIP`, `name`, `_id`. -/
structure Interface where
  _id : Nat
  name : String
  isAssigned : Bool
  type : String
  IPv4 : String
  PublicIP : String
  deriving Repr, DecidableEq

/-- A device as read by `tunnels.js`: `_id`, `hostname`, `machineId`,
`versions.router`, `versions.agent` and the interface list. -/
structure Device where
  _id : Nat
  hostname : String
  machineId : String
  routerVersion : String
  agentVersion : String
  interfaces : List Interface
  deriving Repr, DecidableEq

/-- One document of the `tunnels` collection (models/tunnels):
number, organization, active flag, the two per-side confirmation flags
and the device/interface references. -/
structure TunnelRecord where
  _id : Nat
  org : String
  num : Nat
  isActive : Bool
  deviceAconf : Bool
  deviceBconf : Bool
  deviceA : Nat
  deviceB : Nat
  interfaceA : Nat
  interfaceB : Nat
  deriving Repr, DecidableEq

/-- The four random symmetric keys produced by `generateRandomKeys`. -/
structure TunnelKeys where
  key1 : String
  key2 : String
  key3 : String
  key4 : String
  deriving Repr, DecidableEq

/-- One IPsec security association block (`spi`, `crypto-key`,
`integr-key`, `crypto-alg`, `integr-alg`). -/
structure SA where
  spi : Nat
  cryptoKey : String
  integrKey : String
  cryptoAlg : String
  integrAlg : String
  deriving Repr, DecidableEq

/-- The `ipsec` block of an add-tunnel task (`local-sa`, `remote-sa`). -/
structure IpsecParams where
  localSa : SA
  remoteSa : SA
  deriving Repr, DecidableEq

/-- The `loopback-iface` block; `mtu`/`routing` are absent in
remove-tunnel tasks. -/
structure LoopbackIface where
  addr : String
  mac : String
  mtu : Option Nat
  routing : Option String
  deriving Repr, DecidableEq

/-- The `params` object of an add/remove tunnel task. `ipsec` is `none`
for remove-tunnel tasks. -/
structure TaskParams where
  src : String
  dst : String
  tunnelId : Nat
  ipsec : Option IpsecParams
  loopback : LoopbackIface
  deriving Repr, DecidableEq

/-- One task sent to the agent: `{entity, message, params}`. -/
structure AgentTask where
  entity : String
  message : String
  params : TaskParams
  deriving Repr, DecidableEq

/-- The response-correlation payload attached to a queued job
(the `data` object built in `queueTunnel`). -/
structure JobResponse where
  method : String
  username : String
  org : String
  deviceA : Nat
  deviceB : Nat
  target : String
  deriving Repr, DecidableEq

/-- A job accepted by the delivery system: target machine, title, tasks
and the correlation payload. -/
structure Job where
  machineId : String
  title : String
  tasks : List AgentTask
  response : JobResponse
  deriving Repr, DecidableEq

/-- The durable state of the model: `tunnels` collection, per-org
`tunnelids` counters, accepted jobs, a devices collection (used by
`populate` during deletion) and a fresh-`_id` supply for upserts. -/
structure Store where
  tunnels : List TunnelRecord
  counters : List (String × Nat)
  jobs : List Job
  devicesColl : List Device
  nextId : Nat
  deriving Repr, DecidableEq

/-- Parameters derived from a tunnel number by `generateTunnelParams`. -/
structure TunnelParams where
  ip1 : String
  ip2 : String
  mac1 : String
  mac2 : String
  sa1 : Nat
  sa2 : Nat
  deriving Repr, DecidableEq

/-- JS `('00' + d.toString(16)).substr(-2)`: last two characters of the
zero-padded lowercase hexadecimal representation. -/
def d2h (d : Nat) : String :=
  String.mk (((("00" ++ String.mk (Nat.toDigits 16 d)).data).reverse.take 2).reverse)

/-- `generateTunnelParams` (tunnels.js lines 887-907): derives the two
loopback IPs, MACs and the SA identifiers from the tunnel number. -/
def generateTunnelParams (tunnelNum : Nat) : TunnelParams :=
  let h := (tunnelNum % 127 + 1) * 2
  let l := tunnelNum / 127
  { ip1 := "10.100." ++ toString l ++ "." ++ toString h
    ip2 := "10.100." ++ toString l ++ "." ++ toString (h + 1)
    mac1 := "02:00:27:fd:" ++ d2h l ++ ":" ++ d2h h
    mac2 := "02:00:27:fd:" ++ d2h l ++ ":" ++ d2h (h + 1)
    sa1 := l * 256 + h
    sa2 := l * 256 + h + 1 }

/-- Mongo `findOneAndUpdate` on a list collection: update the first
document matching `q` with `u`; return the pre-update document (the
default `new:false` behaviour) together with the updated collection. -/
def findOneAndUpdateList (q : TunnelRecord → Bool) (u : TunnelRecord → TunnelRecord) :
    List TunnelRecord → Option TunnelRecord × List TunnelRecord
  | [] => (none, [])
  | t :: ts =>
    if q t then (some t, u t :: ts)
    else
      let r := findOneAndUpdateList q u ts
      (r.1, t :: r.2)

/-- `prepareTunnelAddJob` (tunnels.js lines 486-558). The random key
source is passed explicitly (`generateRandomKeys` draws from the
external `utils/random-key` module). `devBagentVer` is accepted and
ignored exactly as in the source (the version-dependent branch is
commented out there). -/
def prepareTunnelAddJob (tunnelnum : Nat) (deviceAIntf deviceBIntf : Interface)
    (devBagentVer : String) (tunnelKeys : TunnelKeys) :
    List AgentTask × List AgentTask :=
  let _ := devBagentVer
  let tunnelParams := generateTunnelParams tunnelnum
  let paramsSaAB : SA :=
    { spi := tunnelParams.sa1
      cryptoKey := tunnelKeys.key1
      integrKey := tunnelKeys.key2
      cryptoAlg := "aes-cbc-128"
      integrAlg := "sha-256-128" }
  let paramsSaBA : SA :=
    { spi := tunnelParams.sa2
      cryptoKey := tunnelKeys.key3
      integrKey := tunnelKeys.key4
      cryptoAlg := "aes-cbc-128"
      integrAlg := "sha-256-128" }
  let paramsDeviceA : TaskParams :=
    { src := deviceAIntf.IPv4
      dst := if deviceBIntf.PublicIP = "" then deviceBIntf.IPv4 else deviceBIntf.PublicIP
      tunnelId := tunnelnum
      ipsec := some { localSa := paramsSaAB, remoteSa := paramsSaBA }
      loopback :=
        { addr := tunnelParams.ip1 ++ "/31"
          mac := tunnelParams.mac1
          mtu := some 1350
          routing := some "ospf" } }
  -- Side B: SPI values are swapped relative to side A's naming
  -- (tunnels.js lines 536-537) while the keys are kept.
  let paramsDeviceB : TaskParams :=
    { src := deviceBIntf.IPv4
      dst := if deviceAIntf.PublicIP = "" then deviceAIntf.IPv4 else deviceAIntf.PublicIP
      tunnelId := tunnelnum
      ipsec := some
        { localSa := { paramsSaAB with spi := tunnelParams.sa2 }
          remoteSa := { paramsSaBA with spi := tunnelParams.sa1 } }
      loopback :=
        { addr := tunnelParams.ip2 ++ "/31"
          mac := tunnelParams.mac2
          mtu := some 1350
          routing := some "ospf" } }
  ([{ entity := "agent", message := "add-tunnel", params := paramsDeviceA }],
   [{ entity := "agent", message := "add-tunnel", params := paramsDeviceB }])

/-- `prepareTunnelRemoveJob` (tunnels.js lines 785-817): minimal tasks
with `src`, `dst`, tunnel id and loopback addr/mac only. -/
def prepareTunnelRemoveJob (tunnelnum : Nat) (deviceAIntf deviceBIntf : Interface) :
    List AgentTask × List AgentTask :=
  let tunnelParams := generateTunnelParams tunnelnum
  let paramsDeviceA : TaskParams :=
    { src := deviceAIntf.IPv4
      dst := if deviceBIntf.PublicIP = "" then deviceBIntf.IPv4 else deviceBIntf.PublicIP
      tunnelId := tunnelnum
      ipsec := none
      loopback :=
        { addr := tunnelParams.ip1 ++ "/31", mac := tunnelParams.mac1
          mtu := none, routing := none } }
  let paramsDeviceB : TaskParams :=
    { src := deviceBIntf.IPv4
      dst := if deviceAIntf.PublicIP = "" then deviceAIntf.IPv4 else deviceAIntf.PublicIP
      tunnelId := tunnelnum
      ipsec := none
      loopback :=
        { addr := tunnelParams.ip2 ++ "/31", mac := tunnelParams.mac2
          mtu := none, routing := none } }
  ([{ entity := "agent", message := "remove-tunnel", params := paramsDeviceA }],
   [{ entity := "agent", message := "remove-tunnel", params := paramsDeviceB }])

/-- `queueTunnel` (tunnels.js lines 391-474): submit one job per device
to the delivery system. Job acceptance always succeeds in the model
(the queue is an external collaborator); the two accepted jobs are
appended to the store and returned. -/
def queueTunnel (isAdd : Bool) (title : String)
    (tasksDeviceA tasksDeviceB : List AgentTask) (user org : String)
    (devAMachineID devBMachineID : String) (devAOid devBOid : Nat)
    (st : Store) : Store × List Job :=
  let jobA : Job :=
    { machineId := devAMachineID
      title := title
      tasks := tasksDeviceA
      response :=
        { method := if isAdd then "tunnels" else "deltunnels"
          username := user, org := org
          deviceA := devAOid, deviceB := devBOid, target := "deviceAconf" } }
  let jobB : Job :=
    { machineId := devBMachineID
      title := title
      tasks := tasksDeviceB
      response :=
        { method := if isAdd then "tunnels" else "deltunnels"
          username := user, org := org
          deviceA := devAOid, deviceB := devBOid, target := "deviceBconf" } }
  ({ st with jobs := st.jobs ++ [jobA, jobB] }, [jobA, jobB])

/-- The `(org, num)` key query of the upsert in `addTunnel`. -/
def keyMatch (org : String) (num : Nat) (t : TunnelRecord) : Bool :=
  t.org == org && t.num == num

/-- The query of the claim-a-deleted-tunnel step:
`{isActive: false, org}`. -/
def inactiveOrg (org : String) (t : TunnelRecord) : Bool :=
  !t.isActive && t.org == org

/-- The active-tunnel existence query of `getTunnelPromise`
(lines 248-255): the two devices in either ordering, active, same
organization. No interface condition appears in the query. -/
def pairMatch (deviceA deviceB : Device) (org : String) (t : TunnelRecord) : Bool :=
  ((t.deviceA == deviceA._id && t.deviceB == deviceB._id) ||
   (t.deviceB == deviceA._id && t.deviceA == deviceB._id)) &&
  t.isActive && t.org == org

/-- The query of `updateTunnelIsConnected`: `{deviceA, deviceB, org}`
in stored order, with no `isActive` or `num` condition. -/
def connQuery (devAOid devBOid : Nat) (org : String) (t : TunnelRecord) : Bool :=
  t.deviceA == devAOid && t.deviceB == devBOid && t.org == org

/-- `addTunnel` (tunnels.js lines 574-632): upsert the tunnel record
keyed by `(org, num)`, build the two add jobs and queue them. The
upsert updates the first `(org, num)` match, or inserts a fresh
document when none exists. -/
def addTunnel (genKeys : Nat → TunnelKeys) (user org : String) (tunnelnum : Nat)
    (deviceA deviceB : Device) (deviceAIntf deviceBIntf : Interface)
    (st : Store) : Store × List Job :=
  let upd := fun (t : TunnelRecord) =>
    { t with
      isActive := true, deviceAconf := false, deviceBconf := false
      deviceA := deviceA._id, interfaceA := deviceAIntf._id
      deviceB := deviceB._id, interfaceB := deviceBIntf._id }
  let found := findOneAndUpdateList (keyMatch org tunnelnum) upd st.tunnels
  let st1 : Store :=
    match found.1 with
    | some _ => { st with tunnels := found.2 }
    | none =>
      { st with
        tunnels := st.tunnels ++
          [{ _id := st.nextId, org := org, num := tunnelnum
             isActive := true, deviceAconf := false, deviceBconf := false
             deviceA := deviceA._id, deviceB := deviceB._id
             interfaceA := deviceAIntf._id, interfaceB := deviceBIntf._id }]
        nextId := st.nextId + 1 }
  let tasks := prepareTunnelAddJob tunnelnum deviceAIntf deviceBIntf
    deviceB.agentVersion (genKeys tunnelnum)
  queueTunnel true
    ("Create tunnel between (" ++ deviceA.hostname ++ "," ++ deviceAIntf.name ++
      ") and (" ++ deviceB.hostname ++ "," ++ deviceBIntf.name ++ ")")
    tasks.1 tasks.2 user org deviceA.machineId deviceB.machineId
    deviceA._id deviceB._id st1

/-- The claim-a-deleted-tunnel step of `getTunnelPromise`
(tunnels.js lines 262-282): `findOneAndUpdate({isActive:false, org},
{isActive:true}, {upsert:false})`. Returns the claimed number, if any. -/
def claimInactive (org : String) (st : Store) : Option Nat × Store :=
  let r := findOneAndUpdateList (inactiveOrg org)
    (fun t => { t with isActive := true }) st.tunnels
  match r.1 with
  | some t0 => (some t0.num, { st with tunnels := r.2 })
  | none => (none, st)

/-- One attempt of the counter increment (tunnels.js lines 283-301):
`findOneAndUpdate({org, nextAvailID: {$gte:0, $lt:15000}},
{$inc:{nextAvailID:1}}, {new:true, upsert:true})`.
With `new:true` the returned number is the post-increment value; an
absent counter is created by the upsert with `nextAvailID = 1`.
When the organization's counter exists but is outside the queried
range, the upsert attempts a second insert for the same (unique) org
key and fails with Mongo duplicate-key error 11000. -/
def mintNum (org : String) (st : Store) : Except Nat (Nat × Store) :=
  match st.counters.find? (fun c => c.1 == org) with
  | some c =>
    if c.2 < 15000 then
      .ok (c.2 + 1,
        { st with counters :=
            st.counters.map (fun d => if d.1 == org then (d.1, c.2 + 1) else d) })
    else .error 11000
  | none => .ok (1, { st with counters := st.counters ++ [(org, 1)] })

/-- Tunnel-number allocation as performed inside `getTunnelPromise`
(tunnels.js lines 262-348): claim an inactive record first; otherwise
increment the counter, retrying exactly once on duplicate-key error
11000; any other error, or a failed retry, rejects with
`Tunnel ID not found`. -/
def allocateTunnelNum (org : String) (st : Store) : Except String (Nat × Store) :=
  match claimInactive org st with
  | (some n, st1) => .ok (n, st1)
  | (none, _) =>
    match mintNum org st with
    | .ok (n, st1) => .ok (n, st1)
    | .error code =>
      if code == 11000 then
        match mintNum org st with
        | .ok (n, st1) => .ok (n, st1)
        | .error _ => .error "Tunnel ID not found"
      else .error "Tunnel ID not found"

/-- Outcome of one per-interface-combination tunnel operation. -/
inductive TunnelOp where
  | skipped
  | created (jobs : List Job)
  deriving Repr, DecidableEq

/-- `getTunnelPromise` (tunnels.js lines 237-374): if an active tunnel
between the two devices (in either ordering) exists in the
organization, resolve without touching anything; otherwise allocate a
number and create record + jobs via `addTunnel`. -/
def getTunnelPromise (genKeys : Nat → TunnelKeys) (user org : String)
    (deviceA deviceB : Device) (deviceAIntf deviceBIntf : Interface)
    (st : Store) : Store × Except String TunnelOp :=
  let tunnelFound := st.tunnels.filter (pairMatch deviceA deviceB org)
  if tunnelFound.length == 0 then
    match allocateTunnelNum org st with
    | .ok (tunnelnum, st1) =>
      let r := addTunnel genKeys user org tunnelnum deviceA deviceB
        deviceAIntf deviceBIntf st1
      (r.1, .ok (.created r.2))
    | .error msg => (st, .error msg)
  else (st, .ok .skipped)

/-- The `user` object as read by the apply entry points:
`user.username` and `user.defaultOrg._id.toString()`. -/
structure User where
  username : String
  defaultOrg : String
  deriving Repr, DecidableEq

/-- The assigned-WAN interface filter of `applyTunnelAdd`
(tunnels.js lines 80-87). -/
def wanIfcs (d : Device) : List Interface :=
  d.interfaces.filter (fun intf => intf.isAssigned && intf.type == "WAN")

/-- The unordered device pairs in the nested-loop order of
`applyTunnelAdd` (lines 65-66): (0,1), (0,2), ..., (1,2), ... -/
def enumPairs : List Device → List (Device × Device)
  | [] => []
  | d :: rest => rest.map (fun b => (d, b)) ++ enumPairs rest

/-- One launched per-interface-combination operation: the two devices
and the WAN interface chosen on each side. -/
abbrev Combo := Device × Device × Interface × Interface

/-- The interface cross-product of one device pair, in the
`forEach wanIfcA (forEach wanIfcB ...)` order of lines 103-121. -/
def pairCombos (a b : Device) : List Combo :=
  ((wanIfcs a).map (fun ia => (wanIfcs b).map (fun ib => (a, b, ia, ib)))).flatten

/-- The synchronous phase of the pair loop in `applyTunnelAdd`
(lines 65-132): walk the pairs in order, checking router-version
compatibility before launching a pair's combinations; an incompatible
pair throws, so the combinations of the pairs already examined are the
only ones launched. -/
def collectTasks (compatible : String → String → Bool) :
    List (Device × Device) → List Combo × Option String
  | [] => ([], none)
  | (a, b) :: rest =>
    if compatible a.routerVersion b.routerVersion then
      let r := collectTasks compatible rest
      (pairCombos a b ++ r.1, r.2)
    else
      ([], some "Cannot create tunnels between devices with mismatching router versions")

/-- First-of-two optional errors (`Promise.all` rejects with the first
rejection; a synchronous throw outranks later rejections). -/
def firstErr (a b : Option String) : Option String :=
  match a with
  | some m => some m
  | none => b

/-- The asynchronous phase: every launched combination runs to
completion (a rejection does not cancel the others); the first
rejection, if any, is what `Promise.all` reports. -/
def runCombos (genKeys : Nat → TunnelKeys) (user org : String) :
    List Combo → Store → Store × Option String
  | [], st => (st, none)
  | c :: cs, st =>
    let r := getTunnelPromise genKeys user org c.1 c.2.1 c.2.2.1 c.2.2.2 st
    let e : Option String := match r.2 with
      | .error m => some m
      | .ok _ => none
    let rest := runCombos genKeys user org cs r.1
    (rest.1, firstErr e rest.2)

/-- `applyTunnelAdd` (tunnels.js lines 40-142): filter the selected
devices, require at least two, launch the per-pair per-combination
operations and join. The returned `Option String` is the error the
caller observes; the returned store is the eventual durable state. -/
def applyTunnelAdd (compatible : String → String → Bool)
    (genKeys : Nat → TunnelKeys) (devices : List Device)
    (selectedDevices : List Nat) (user : User) (st : Store) :
    Store × Option String :=
  let opDevices := devices.filter (fun device => selectedDevices.contains device._id)
  if 2 ≤ opDevices.length then
    let sync := collectTasks compatible (enumPairs opDevices)
    let run := runCombos genKeys user.username user.defaultOrg sync.1 st
    (run.1, firstErr sync.2 run.2)
  else (st, some "At least 2 devices must be selected to create tunnels")

/-- `updateTunnelIsConnected` (tunnels.js lines 644-690):
`findOneAndUpdate({deviceA, deviceB, org}, {[target]: isAdd},
{upsert:false, new:true})`. The query names the devices in stored
order only and has no `isActive` or `num` condition. The dynamic
`update[target] = isAdd` write is modelled for the two schema paths
the callers use (mongoose strict mode drops writes to paths outside
the schema, hence the final identity branch). Returns whether a
document was matched. -/
def updateTunnelIsConnected (org : String) (devAOid devBOid : Nat)
    (target : String) (isAdd : Bool) (st : Store) : Store × Bool :=
  let update := fun (t : TunnelRecord) =>
    if target == "deviceAconf" then { t with deviceAconf := isAdd }
    else if target == "deviceBconf" then { t with deviceBconf := isAdd }
    else t
  let r := findOneAndUpdateList (connQuery devAOid devBOid org) update st.tunnels
  match r.1 with
  | some _ => ({ st with tunnels := r.2 }, true)
  | none => (st, false)

/-- The job-completion callback payload (`res` in `completeTunnelAdd`):
each field may be missing, and string fields may be empty (JS
falsiness). -/
structure JobResult where
  deviceA : Option Nat
  deviceB : Option Nat
  target : Option String
  username : Option String
  org : Option String
  deriving Repr, DecidableEq

/-- `completeTunnelAdd` (tunnels.js lines 151-168): drop malformed
payloads (`!res || !res.deviceA || !res.deviceB || !res.target ||
!res.username || !res.org`), then set the named confirmation flag via
`updateTunnelIsConnected`. Device ids are ObjectIds, hence truthy
whenever present; the string fields are falsy when empty. -/
def completeTunnelAdd (res : Option JobResult) (st : Store) : Store :=
  match res with
  | some { deviceA := some devA, deviceB := some devB, target := some tgt,
           username := some user, org := some org } =>
    if tgt == "" || user == "" || org == "" then st
    else (updateTunnelIsConnected org devA devB tgt true st).1
  | _ => st

/-- `delTunnel` (tunnels.js lines 830-871): build the remove tasks and
queue one remove job per device. -/
def delTunnel (user org : String) (tunnelnum : Nat) (deviceA deviceB : Device)
    (deviceAIntf deviceBIntf : Interface) (st : Store) : Store × List Job :=
  let tasks := prepareTunnelRemoveJob tunnelnum deviceAIntf deviceBIntf
  queueTunnel false
    ("Delete tunnel between (" ++ deviceA.hostname ++ "," ++ deviceAIntf.name ++
      ") and (" ++ deviceB.hostname ++ "," ++ deviceBIntf.name ++ ")")
    tasks.1 tasks.2 user org deviceA.machineId deviceB.machineId
    deviceA._id deviceB._id st

/-- `oneTunnelDel` (tunnels.js lines 729-763): load the active tunnel
with its devices and interfaces, queue the remove jobs, then
deactivate the record. A missing tunnel, device or interface faults
the promise (in JS, a `TypeError` on a null dereference). Jobs queued
before a late failure remain queued. -/
def oneTunnelDel (tunnelID : Nat) (user org : String) (st : Store) :
    Store × Except String (List Job) :=
  match st.tunnels.find? (fun t => t._id == tunnelID && t.isActive && t.org == org) with
  | none => (st, .error "tunnel not found")
  | some tunnelResp =>
    match st.devicesColl.find? (fun d => d._id == tunnelResp.deviceA),
          st.devicesColl.find? (fun d => d._id == tunnelResp.deviceB) with
    | some deviceA, some deviceB =>
      match (deviceA.interfaces.filter (fun ifc => ifc._id == tunnelResp.interfaceA)).head?,
            (deviceB.interfaces.filter (fun ifc => ifc._id == tunnelResp.interfaceB)).head? with
      | some deviceAIntf, some deviceBIntf =>
        let r := delTunnel user org tunnelResp.num deviceA deviceB
          deviceAIntf deviceBIntf st
        let upd := findOneAndUpdateList
          (fun t => t._id == tunnelID && t.org == org)
          (fun t => { t with isActive := false, deviceAconf := false, deviceBconf := false })
          r.1.tunnels
        match upd.1 with
        | some _ => ({ r.1 with tunnels := upd.2 }, .ok r.2)
        | none => (r.1, .error "Error deleting tunnel")
      | _, _ => (st, .error "interface not found")
    | _, _ => (st, .error "device not found")

/-- `applyTunnelDel` (tunnels.js lines 700-720): proceed only when a
device context is present and exactly one tunnel is selected —
otherwise the function returns without doing or reporting anything.
Failures inside `oneTunnelDel` are rethrown with a fixed message. -/
def applyTunnelDel (devicesPresent : Bool) (tunnelIds : List Nat)
    (user : User) (st : Store) : Store × Option String :=
  if devicesPresent && tunnelIds.length == 1 then
    match tunnelIds with
    | tunnelID :: _ =>
      let r := oneTunnelDel tunnelID user.username user.defaultOrg st
      match r.2 with
      | .ok _ => (r.1, none)
      | .error _ =>
        (r.1, some "Attempt to delete more than one tunnel or no devices found")
    | [] => (st, none)
  else (st, none)

/-- The counter-increment retry control flow of `getTunnelPromise`
(tunnels.js lines 302-348), abstracted over the outcomes the durable
store produces for the first and the potential second attempt (the
error payload is the Mongo error code). Returns the overall outcome
together with the number of increment attempts performed. -/
def tunnelIdRetry (attempt1 attempt2 : Except Nat Nat) : Except String Nat × Nat :=
  match attempt1 with
  | .ok n => (.ok n, 1)
  | .error code =>
    if code == 11000 then
      match attempt2 with
      | .ok n => (.ok n, 2)
      | .error _ => (.error "Tunnel ID not found", 2)
    else (.error "Tunnel ID not found", 1)

/-- Two tunnel records differ in their `(org, num)` key. The data
model keeps this pairwise across the collection: records are only ever
inserted through the `(org, num)`-keyed upsert of `addTunnel`. -/
def keyDiff (s t : TunnelRecord) : Prop :=
  s.org ≠ t.org ∨ s.num ≠ t.num

/-! ### Concrete fixtures used to instantiate the theorems -/

/-- A WAN interface with no public IP. -/
def cIfA : Interface :=
  { _id := 10, name := "eth0", isAssigned := true, type := "WAN"
    IPv4 := "192.168.1.1", PublicIP := "" }

/-- A WAN interface behind NAT with a public IP. -/
def cIfB : Interface :=
  { _id := 20, name := "eth0", isAssigned := true, type := "WAN"
    IPv4 := "192.168.2.1", PublicIP := "5.5.5.5" }

/-- A second WAN interface on device A (multi-WAN scenarios). -/
def cIfA2 : Interface :=
  { _id := 11, name := "eth1", isAssigned := true, type := "WAN"
    IPv4 := "192.168.1.9", PublicIP := "" }

/-- A second WAN interface on device B (multi-WAN scenarios). -/
def cIfB2 : Interface :=
  { _id := 21, name := "eth1", isAssigned := true, type := "WAN"
    IPv4 := "192.168.2.9", PublicIP := "" }

def cDevA : Device :=
  { _id := 1, hostname := "devA", machineId := "mA"
    routerVersion := "1.0.0", agentVersion := "1.0.0", interfaces := [cIfA] }

def cDevB : Device :=
  { _id := 2, hostname := "devB", machineId := "mB"
    routerVersion := "1.0.0", agentVersion := "1.0.0", interfaces := [cIfB] }

/-- A device with a router version unlike the others. -/
def cDevC : Device :=
  { _id := 3, hostname := "devC", machineId := "mC"
    routerVersion := "9.0.0", agentVersion := "9.0.0", interfaces := [cIfB2] }

def cUser : User := { username := "admin", defaultOrg := "org1" }

def cKeys : TunnelKeys :=
  { key1 := "k1", key2 := "k2", key3 := "k3", key4 := "k4" }

def emptyStore : Store :=
  { tunnels := [], counters := [], jobs := [], devicesColl := [], nextId := 0 }

/-- A version predicate that accepts everything. -/
def allCompatible : String → String → Bool := fun _ _ => true

/-- A version predicate comparing versions for equality (stand-in for
the external `routerVersionsCompatible`). -/
def eqCompatible : String → String → Bool := fun a b => a == b

def cGenKeys : Nat → TunnelKeys := fun _ => cKeys

/-- An active tunnel record between `cDevA` and `cDevB` over the
first interface pair. -/
def cActiveTunnel : TunnelRecord :=
  { _id := 100, org := "org1", num := 1, isActive := true
    deviceAconf := true, deviceBconf := false
    deviceA := 1, deviceB := 2, interfaceA := 10, interfaceB := 20 }

/-- An inactive (deleted) tunnel record with number 7. -/
def cInactiveTunnel : TunnelRecord :=
  { _id := 101, org := "org1", num := 7, isActive := false
    deviceAconf := false, deviceBconf := false
    deviceA := 4, deviceB := 5, interfaceA := 40, interfaceB := 50 }

/-! ### Generic facts about the list-level `findOneAndUpdate` -/

theorem filter_eq_nil_of_false (q : TunnelRecord → Bool) (l : List TunnelRecord)
    (h : ∀ x ∈ l, q x = false) : l.filter q = [] := by
  induction l with
  | nil => rfl
  | cons t ts ih =>
    have ht : q t = false := h t (List.mem_cons_self t ts)
    simp [List.filter_cons, ht, ih (fun x hx => h x (List.mem_cons_of_mem _ hx))]

theorem findOneAndUpdateList_none (q : TunnelRecord → Bool)
    (u : TunnelRecord → TunnelRecord) (l : List TunnelRecord)
    (h : ∀ x ∈ l, q x = false) :
    findOneAndUpdateList q u l = (none, l) := by
  induction l with
  | nil => rfl
  | cons t ts ih =>
    have ht : q t = false := h t (List.mem_cons_self t ts)
    simp [findOneAndUpdateList, ht,
      ih (fun x hx => h x (List.mem_cons_of_mem _ hx))]

theorem findOneAndUpdateList_found (q : TunnelRecord → Bool)
    (u : TunnelRecord → TunnelRecord) (pre : List TunnelRecord)
    (r : TunnelRecord) (post : List TunnelRecord)
    (hpre : ∀ x ∈ pre, q x = false) (hr : q r = true) :
    findOneAndUpdateList q u (pre ++ r :: post) = (some r, pre ++ u r :: post) := by
  induction pre with
  | nil => simp [findOneAndUpdateList, hr]
  | cons t ts ih =>
    have ht : q t = false := hpre t (List.mem_cons_self t ts)
    simp [findOneAndUpdateList, ht,
      ih (fun x hx => hpre x (List.mem_cons_of_mem _ hx))]

theorem exists_first_match (q : TunnelRecord → Bool) (l : List TunnelRecord)
    (h : ∃ x ∈ l, q x = true) :
    ∃ pre r post, l = pre ++ r :: post ∧ (∀ x ∈ pre, q x = false) ∧ q r = true := by
  induction l with
  | nil => simp at h
  | cons t ts ih =>
    by_cases ht : q t = true
    · exact ⟨[], t, ts, rfl, by simp, ht⟩
    · have ht' : q t = false := by
        cases hqt : q t with
        | false => rfl
        | true => exact absurd hqt ht
      obtain ⟨x, hx, hqx⟩ := h
      rcases List.mem_cons.mp hx with hxt | hx'
      · exact absurd (hxt ▸ hqx) ht
      · obtain ⟨pre, r, post, heq, hpre, hr⟩ := ih ⟨x, hx', hqx⟩
        refine ⟨t :: pre, r, post, by simp [heq], ?_, hr⟩
        intro y hy
        rcases List.mem_cons.mp hy with hyt | hy'
        · exact hyt ▸ ht'
        · exact hpre y hy'

theorem pairwise_keyDiff_replace (pre post : List TunnelRecord)
    (r r' : TunnelRecord) (horg : r'.org = r.org) (hnum : r'.num = r.num)
    (h : (pre ++ r :: post).Pairwise keyDiff) :
    (pre ++ r' :: post).Pairwise keyDiff := by
  rw [List.pairwise_append] at h ⊢
  obtain ⟨h1, h2, h3⟩ := h
  rw [List.pairwise_cons] at h2 ⊢
  refine ⟨h1, ⟨?_, h2.2⟩, ?_⟩
  · intro x hx
    have := h2.1 x hx
    unfold keyDiff at this ⊢
    rw [horg, hnum]
    exact this
  · intro a ha b hb
    rcases List.mem_cons.mp hb with hbr | hb'
    · have := h3 a ha r (List.mem_cons_self r post)
      subst hbr
      unfold keyDiff at this ⊢
      rw [horg, hnum]
      exact this
    · exact h3 a ha b (List.mem_cons_of_mem _ hb')

/-! ### Query predicates as propositions -/

theorem keyMatch_iff (org : String) (n : Nat) (t : TunnelRecord) :
    keyMatch org n t = true ↔ (t.org = org ∧ t.num = n) := by
  simp [keyMatch]

theorem keyMatch_false_iff (org : String) (n : Nat) (t : TunnelRecord) :
    keyMatch org n t = false ↔ ¬(t.org = org ∧ t.num = n) := by
  rw [← keyMatch_iff org n t]
  cases keyMatch org n t <;> simp

theorem inactiveOrg_iff (org : String) (t : TunnelRecord) :
    inactiveOrg org t = true ↔ (t.isActive = false ∧ t.org = org) := by
  simp [inactiveOrg]

/-! ### Allocation lemmas -/

theorem claimInactive_of_none (org : String) (st : Store)
    (h : ∀ t ∈ st.tunnels, inactiveOrg org t = false) :
    claimInactive org st = (none, st) := by
  simp [claimInactive, findOneAndUpdateList_none _ _ _ h]

theorem claimInactive_of_found (org : String) (st : Store)
    (pre : List TunnelRecord) (r : TunnelRecord) (post : List TunnelRecord)
    (heq : st.tunnels = pre ++ r :: post)
    (hpre : ∀ x ∈ pre, inactiveOrg org x = false)
    (hr : inactiveOrg org r = true) :
    claimInactive org st =
      (some r.num, { st with tunnels := pre ++ { r with isActive := true } :: post }) := by
  simp [claimInactive, heq, findOneAndUpdateList_found _ _ pre r post hpre hr]

/-- Abstract specification of `addTunnel`: it queues exactly the two
jobs (device A's first), leaves counters and the devices collection
alone, and leaves the tunnels collection with exactly one record keyed
`(org, n)` — active, unconfirmed on both sides, referencing the given
devices and interfaces — while every other record is untouched. -/
theorem addTunnel_spec (genKeys : Nat → TunnelKeys) (user org : String) (n : Nat)
    (dA dB : Device) (ifA ifB : Interface) (st1 st2 : Store) (js : List Job)
    (hUniq : st1.tunnels.Pairwise keyDiff)
    (hrun : addTunnel genKeys user org n dA dB ifA ifB st1 = (st2, js)) :
    ∃ jobA jobB rec,
      js = [jobA, jobB] ∧
      st2.jobs = st1.jobs ++ [jobA, jobB] ∧
      st2.counters = st1.counters ∧
      st2.devicesColl = st1.devicesColl ∧
      jobA.machineId = dA.machineId ∧
      jobB.machineId = dB.machineId ∧
      (∃ pA, jobA.tasks = [{ entity := "agent", message := "add-tunnel", params := pA }] ∧
        pA.tunnelId = n ∧ pA.src = ifA.IPv4 ∧
        pA.dst = (if ifB.PublicIP = "" then ifB.IPv4 else ifB.PublicIP)) ∧
      (∃ pB, jobB.tasks = [{ entity := "agent", message := "add-tunnel", params := pB }] ∧
        pB.tunnelId = n ∧ pB.src = ifB.IPv4 ∧
        pB.dst = (if ifA.PublicIP = "" then ifA.IPv4 else ifA.PublicIP)) ∧
      st2.tunnels.filter (keyMatch org n) = [rec] ∧
      rec.org = org ∧ rec.num = n ∧ rec.isActive = true ∧
      rec.deviceAconf = false ∧ rec.deviceBconf = false ∧
      rec.deviceA = dA._id ∧ rec.deviceB = dB._id ∧
      rec.interfaceA = ifA._id ∧ rec.interfaceB = ifB._id ∧
      st2.tunnels.filter (fun t => !keyMatch org n t) =
        st1.tunnels.filter (fun t => !keyMatch org n t) ∧
      st2.tunnels.Pairwise keyDiff := by
  classical
  by_cases hex : ∃ x ∈ st1.tunnels, keyMatch org n x = true
  case pos =>
    obtain ⟨pre, r0, post, heq, hpre, hr0⟩ := exists_first_match _ _ hex
    have hpost : ∀ x ∈ post, keyMatch org n x = false := by
      have hU := hUniq
      rw [heq, List.pairwise_append] at hU
      have h2 := (List.pairwise_cons.mp hU.2.1).1
      intro x hx
      cases hq : keyMatch org n x with
      | false => rfl
      | true =>
        exfalso
        have hx' := (keyMatch_iff org n x).mp hq
        have hr' := (keyMatch_iff org n r0).mp hr0
        rcases h2 x hx with h | h
        · exact h (hr'.1.trans hx'.1.symm)
        · exact h (hr'.2.trans hx'.2.symm)
    have hupd : keyMatch org n
        { r0 with
          isActive := true, deviceAconf := false, deviceBconf := false
          deviceA := dA._id, interfaceA := ifA._id
          deviceB := dB._id, interfaceB := ifB._id } = true := hr0
    simp only [addTunnel, queueTunnel, heq,
      findOneAndUpdateList_found _ _ pre r0 post hpre hr0] at hrun
    rw [Prod.mk.injEq] at hrun
    obtain ⟨hst, hjs⟩ := hrun
    subst hst
    subst hjs
    refine ⟨_, _,
      { r0 with
        isActive := true, deviceAconf := false, deviceBconf := false
        deviceA := dA._id, interfaceA := ifA._id
        deviceB := dB._id, interfaceB := ifB._id },
      rfl, rfl, rfl, rfl, rfl, rfl,
      ⟨_, rfl, rfl, rfl, rfl⟩, ⟨_, rfl, rfl, rfl, rfl⟩, ?_,
      (keyMatch_iff org n r0).mp hr0 |>.1, (keyMatch_iff org n r0).mp hr0 |>.2,
      rfl, rfl, rfl, rfl, rfl, rfl, rfl, ?_, ?_⟩
    · simp [List.filter_append, List.filter_cons, hupd,
        filter_eq_nil_of_false _ _ hpre, filter_eq_nil_of_false _ _ hpost]
    · rw [heq]
      simp [List.filter_append, List.filter_cons, hupd, hr0]
    · exact pairwise_keyDiff_replace pre post r0 _ rfl rfl (heq ▸ hUniq)
  case neg =>
    have hall : ∀ x ∈ st1.tunnels, keyMatch org n x = false := by
      intro x hx
      cases hq : keyMatch org n x with
      | false => rfl
      | true => exact absurd ⟨x, hx, hq⟩ hex
    have hnew : keyMatch org n
        { _id := st1.nextId, org := org, num := n
          isActive := true, deviceAconf := false, deviceBconf := false
          deviceA := dA._id, deviceB := dB._id
          interfaceA := ifA._id, interfaceB := ifB._id } = true := by
      simp [keyMatch]
    simp only [addTunnel, queueTunnel,
      findOneAndUpdateList_none _ _ _ hall] at hrun
    rw [Prod.mk.injEq] at hrun
    obtain ⟨hst, hjs⟩ := hrun
    subst hst
    subst hjs
    refine ⟨_, _,
      { _id := st1.nextId, org := org, num := n
        isActive := true, deviceAconf := false, deviceBconf := false
        deviceA := dA._id, deviceB := dB._id
        interfaceA := ifA._id, interfaceB := ifB._id },
      rfl, rfl, rfl, rfl, rfl, rfl,
      ⟨_, rfl, rfl, rfl, rfl⟩, ⟨_, rfl, rfl, rfl, rfl⟩, ?_,
      rfl, rfl, rfl, rfl, rfl, rfl, rfl, rfl, rfl, ?_, ?_⟩
    · simp [List.filter_append, List.filter_cons, hnew,
        filter_eq_nil_of_false _ _ hall]
    · simp [List.filter_append, List.filter_cons, hnew]
    · rw [List.pairwise_append]
      refine ⟨hUniq, List.pairwise_singleton _ _, ?_⟩
      intro a ha b hb
      rw [List.mem_singleton] at hb
      subst hb
      have := (keyMatch_false_iff org n a).mp (hall a ha)
      unfold keyDiff
      by_cases horg : a.org = org
      · right
        intro hnum2
        exact this ⟨horg, hnum2⟩
      · left
        exact horg

/-- Allocation succeeds whenever an inactive record is reusable or the
counter is absent or below capacity; it touches neither jobs nor the
devices collection, keeps `(org, num)` keys pairwise distinct, and
leaves every record other than the one keyed by the returned number
untouched. -/
theorem allocateTunnelNum_ok (org : String) (st : Store)
    (hUniq : st.tunnels.Pairwise keyDiff)
    (hAlloc : (∃ t ∈ st.tunnels, inactiveOrg org t = true) ∨
      st.counters.find? (fun c => c.1 == org) = none ∨
      ∃ c, st.counters.find? (fun c => c.1 == org) = some c ∧ c.2 < 15000) :
    ∃ n st1, allocateTunnelNum org st = .ok (n, st1) ∧
      st1.jobs = st.jobs ∧ st1.devicesColl = st.devicesColl ∧
      st1.nextId = st.nextId ∧
      st1.tunnels.Pairwise keyDiff ∧
      st1.tunnels.filter (fun t => !keyMatch org n t) =
        st.tunnels.filter (fun t => !keyMatch org n t) := by
  classical
  by_cases hcl : ∃ t ∈ st.tunnels, inactiveOrg org t = true
  case pos =>
    obtain ⟨pre, r, post, heq, hpre, hr⟩ := exists_first_match _ _ hcl
    have horg : r.org = org := ((inactiveOrg_iff org r).mp hr).2
    have hkr : keyMatch org r.num r = true :=
      (keyMatch_iff org r.num r).mpr ⟨horg, rfl⟩
    have hkr' : keyMatch org r.num { r with isActive := true } = true := hkr
    refine ⟨r.num,
      { st with tunnels := pre ++ { r with isActive := true } :: post },
      ?_, rfl, rfl, rfl, ?_, ?_⟩
    · simp [allocateTunnelNum, claimInactive_of_found org st pre r post heq hpre hr]
    · exact pairwise_keyDiff_replace pre post r _ rfl rfl (heq ▸ hUniq)
    · rw [heq]
      simp [List.filter_append, List.filter_cons, hkr, hkr']
  case neg =>
    have hin : ∀ t ∈ st.tunnels, inactiveOrg org t = false := by
      intro t ht
      cases hq : inactiveOrg org t with
      | false => rfl
      | true => exact absurd ⟨t, ht, hq⟩ hcl
    rcases hAlloc with h | hfind | ⟨c, hfind, hc⟩
    · exact absurd h hcl
    · refine ⟨1, { st with counters := st.counters ++ [(org, 1)] },
        ?_, rfl, rfl, rfl, hUniq, rfl⟩
      simp [allocateTunnelNum, claimInactive_of_none org st hin, mintNum, hfind]
    · refine ⟨c.2 + 1,
        { st with counters :=
            st.counters.map (fun d => if d.1 == org then (d.1, c.2 + 1) else d) },
        ?_, rfl, rfl, rfl, hUniq, rfl⟩
      simp [allocateTunnelNum, claimInactive_of_none org st hin, mintNum, hfind, hc]

/-- When no active tunnel exists between the two devices and
allocation can succeed, `getTunnelPromise` resolves with a created
tunnel: exactly two jobs queued (one per device, consistent src/dst
addressing, both naming the allocated number) and exactly one record
keyed by `(org, n)` — active, unconfirmed, referencing the pair —
with every other record untouched. -/
theorem getTunnelPromise_creates (genKeys : Nat → TunnelKeys) (user org : String)
    (dA dB : Device) (ifA ifB : Interface) (st : Store)
    (hUniq : st.tunnels.Pairwise keyDiff)
    (hnoact : ∀ t ∈ st.tunnels, pairMatch dA dB org t = false)
    (hAlloc : (∃ t ∈ st.tunnels, inactiveOrg org t = true) ∨
      st.counters.find? (fun c => c.1 == org) = none ∨
      ∃ c, st.counters.find? (fun c => c.1 == org) = some c ∧ c.2 < 15000) :
    ∃ n st2 jobA jobB rec,
      getTunnelPromise genKeys user org dA dB ifA ifB st =
        (st2, .ok (.created [jobA, jobB])) ∧
      st2.jobs = st.jobs ++ [jobA, jobB] ∧
      st2.devicesColl = st.devicesColl ∧
      jobA.machineId = dA.machineId ∧
      jobB.machineId = dB.machineId ∧
      (∃ pA, jobA.tasks = [{ entity := "agent", message := "add-tunnel", params := pA }] ∧
        pA.tunnelId = n ∧ pA.src = ifA.IPv4 ∧
        pA.dst = (if ifB.PublicIP = "" then ifB.IPv4 else ifB.PublicIP)) ∧
      (∃ pB, jobB.tasks = [{ entity := "agent", message := "add-tunnel", params := pB }] ∧
        pB.tunnelId = n ∧ pB.src = ifB.IPv4 ∧
        pB.dst = (if ifA.PublicIP = "" then ifA.IPv4 else ifA.PublicIP)) ∧
      st2.tunnels.filter (keyMatch org n) = [rec] ∧
      rec.org = org ∧ rec.num = n ∧ rec.isActive = true ∧
      rec.deviceAconf = false ∧ rec.deviceBconf = false ∧
      rec.deviceA = dA._id ∧ rec.deviceB = dB._id ∧
      rec.interfaceA = ifA._id ∧ rec.interfaceB = ifB._id ∧
      st2.tunnels.filter (fun t => !keyMatch org n t) =
        st.tunnels.filter (fun t => !keyMatch org n t) := by
  obtain ⟨n, st1, halloc, hjobs1, hdev1, hnid1, hUniq1, hframe1⟩ :=
    allocateTunnelNum_ok org st hUniq hAlloc
  obtain ⟨jobA, jobB, rec, hjs, hjobs2, hcnt2, hdev2, hmA, hmB, hpA, hpB,
      hkey, ho, hn, hact, hca, hcb, hda, hdb, hia, hib, hframe2, _⟩ :=
    addTunnel_spec genKeys user org n dA dB ifA ifB st1
      (addTunnel genKeys user org n dA dB ifA ifB st1).1
      (addTunnel genKeys user org n dA dB ifA ifB st1).2 hUniq1 rfl
  refine ⟨n, (addTunnel genKeys user org n dA dB ifA ifB st1).1, jobA, jobB, rec,
    ?_, ?_, ?_, hmA, hmB, hpA, hpB, hkey, ho, hn, hact, hca, hcb, hda, hdb,
    hia, hib, ?_⟩
  · rw [getTunnelPromise]
    simp only [filter_eq_nil_of_false _ _ hnoact, halloc, List.length_nil]
    rw [← hjs]
    rfl
  · rw [hjobs2, hjobs1]
  · rw [hdev2, hdev1]
  · rw [hframe2, hframe1]

/-- **C1**: for two selected devices of one organization, each exposing
exactly one assigned WAN interface, with no pre-existing active tunnel
between them (organization not at allocation capacity, records keyed
uniquely by `(org, num)`), `applyTunnelAdd` resolves without error,
creates exactly one tunnel record keyed `(org, n)` — `isActive` true,
both confirmation flags false — and queues exactly two jobs, one per
device, whose task params carry the same tunnel number `n` and
mutually consistent src/dst: each side's `src` is its own interface
IPv4 and its `dst` is the peer interface's `PublicIP` when non-empty,
else the peer's IPv4. -/
theorem C1_applyTunnelAdd_pair_one_record_two_jobs
    (compatible : String → String → Bool) (genKeys : Nat → TunnelKeys)
    (devices : List Device) (selectedDevices : List Nat) (user : User)
    (dA dB : Device) (ifA ifB : Interface) (st : Store)
    (hsel : devices.filter (fun d => selectedDevices.contains d._id) = [dA, dB])
    (hcompat : compatible dA.routerVersion dB.routerVersion = true)
    (hwA : wanIfcs dA = [ifA]) (hwB : wanIfcs dB = [ifB])
    (hUniq : st.tunnels.Pairwise keyDiff)
    (hnoact : ∀ t ∈ st.tunnels, pairMatch dA dB user.defaultOrg t = false)
    (hAlloc : (∃ t ∈ st.tunnels, inactiveOrg user.defaultOrg t = true) ∨
      st.counters.find? (fun c => c.1 == user.defaultOrg) = none ∨
      ∃ c, st.counters.find? (fun c => c.1 == user.defaultOrg) = some c ∧
        c.2 < 15000) :
    ∃ n st2 jobA jobB rec,
      applyTunnelAdd compatible genKeys devices selectedDevices user st =
        (st2, none) ∧
      st2.jobs = st.jobs ++ [jobA, jobB] ∧
      jobA.machineId = dA.machineId ∧
      jobB.machineId = dB.machineId ∧
      (∃ pA, jobA.tasks = [{ entity := "agent", message := "add-tunnel", params := pA }] ∧
        pA.tunnelId = n ∧ pA.src = ifA.IPv4 ∧
        pA.dst = (if ifB.PublicIP = "" then ifB.IPv4 else ifB.PublicIP)) ∧
      (∃ pB, jobB.tasks = [{ entity := "agent", message := "add-tunnel", params := pB }] ∧
        pB.tunnelId = n ∧ pB.src = ifB.IPv4 ∧
        pB.dst = (if ifA.PublicIP = "" then ifA.IPv4 else ifA.PublicIP)) ∧
      st2.tunnels.filter (keyMatch user.defaultOrg n) = [rec] ∧
      rec.isActive = true ∧ rec.deviceAconf = false ∧ rec.deviceBconf = false ∧
      rec.deviceA = dA._id ∧ rec.deviceB = dB._id ∧
      rec.interfaceA = ifA._id ∧ rec.interfaceB = ifB._id ∧
      st2.tunnels.filter (fun t => !keyMatch user.defaultOrg n t) =
        st.tunnels.filter (fun t => !keyMatch user.defaultOrg n t) := by
  obtain ⟨n, st2, jobA, jobB, rec, hgtp, hjobs, hdev, hmA, hmB, hpA, hpB,
      hkey, ho, hn, hact, hca, hcb, hda, hdb, hia, hib, hframe⟩ :=
    getTunnelPromise_creates genKeys user.username user.defaultOrg dA dB ifA ifB st
      hUniq hnoact hAlloc
  refine ⟨n, st2, jobA, jobB, rec, ?_, hjobs, hmA, hmB, hpA, hpB, hkey,
    hact, hca, hcb, hda, hdb, hia, hib, hframe⟩
  rw [applyTunnelAdd]
  simp only [hsel]
  norm_num [enumPairs, collectTasks, hcompat, pairCombos, hwA, hwB,
    runCombos, hgtp, firstErr]

/-- Witness for C1: concrete two-device selection over an empty store. -/
theorem C1_witness :
    ∃ n st2 jobA jobB rec,
      applyTunnelAdd allCompatible cGenKeys [cDevA, cDevB] [1, 2] cUser emptyStore =
        (st2, none) ∧
      st2.jobs = emptyStore.jobs ++ [jobA, jobB] ∧
      jobA.machineId = cDevA.machineId ∧
      jobB.machineId = cDevB.machineId ∧
      (∃ pA, jobA.tasks = [{ entity := "agent", message := "add-tunnel", params := pA }] ∧
        pA.tunnelId = n ∧ pA.src = cIfA.IPv4 ∧
        pA.dst = (if cIfB.PublicIP = "" then cIfB.IPv4 else cIfB.PublicIP)) ∧
      (∃ pB, jobB.tasks = [{ entity := "agent", message := "add-tunnel", params := pB }] ∧
        pB.tunnelId = n ∧ pB.src = cIfB.IPv4 ∧
        pB.dst = (if cIfA.PublicIP = "" then cIfA.IPv4 else cIfA.PublicIP)) ∧
      st2.tunnels.filter (keyMatch cUser.defaultOrg n) = [rec] ∧
      rec.isActive = true ∧ rec.deviceAconf = false ∧ rec.deviceBconf = false ∧
      rec.deviceA = cDevA._id ∧ rec.deviceB = cDevB._id ∧
      rec.interfaceA = cIfA._id ∧ rec.interfaceB = cIfB._id ∧
      st2.tunnels.filter (fun t => !keyMatch cUser.defaultOrg n t) =
        emptyStore.tunnels.filter (fun t => !keyMatch cUser.defaultOrg n t) :=
  C1_applyTunnelAdd_pair_one_record_two_jobs allCompatible cGenKeys
    [cDevA, cDevB] [1, 2] cUser cDevA cDevB cIfA cIfB emptyStore
    rfl rfl rfl rfl List.Pairwise.nil
    (by intro t ht; simp [emptyStore] at ht)
    (Or.inr (Or.inl rfl))

/-- Left-cancellation of string concatenation. -/
theorem string_append_left_cancel (s a b : String) (h : s ++ a = s ++ b) :
    a = b := by
  have hd : (s ++ a).data = (s ++ b).data := congrArg String.data h
  rw [String.data_append, String.data_append] at hd
  exact String.ext (List.append_cancel_left hd)

/-- The decimal representations of `(m+1)*2` and `(m+1)*2 + 1` differ
for every residue `m` of a tunnel number mod 127. -/
theorem toString_succ_ne_below :
    ∀ m < 127, toString ((m + 1) * 2) ≠ toString ((m + 1) * 2 + 1) := by
  decide

/-- **C7**: `generateTunnelParams` is a pure deterministic function of
the tunnel number: repeated calls agree; `ip1 = 10.100.l.h` and
`ip2 = 10.100.l.(h+1)` with `h = (n mod 127 + 1) * 2` and
`l = floor(n / 127)`; the two endpoint IPs differ; `sa1 = l*256 + h`
and `sa2 = sa1 + 1`; and `h` is always even. -/
theorem C7_generateTunnelParams_pure (n : Nat) :
    generateTunnelParams n = generateTunnelParams n ∧
    (generateTunnelParams n).ip1 =
      "10.100." ++ toString (n / 127) ++ "." ++ toString ((n % 127 + 1) * 2) ∧
    (generateTunnelParams n).ip2 =
      "10.100." ++ toString (n / 127) ++ "." ++ toString ((n % 127 + 1) * 2 + 1) ∧
    (generateTunnelParams n).ip1 ≠ (generateTunnelParams n).ip2 ∧
    (generateTunnelParams n).sa1 = (n / 127) * 256 + (n % 127 + 1) * 2 ∧
    (generateTunnelParams n).sa2 = (generateTunnelParams n).sa1 + 1 ∧
    Even ((n % 127 + 1) * 2) := by
  refine ⟨rfl, rfl, rfl, ?_, rfl, rfl, ⟨n % 127 + 1, by ring⟩⟩
  intro heq
  have hcancel := string_append_left_cancel
    ("10.100." ++ toString (n / 127) ++ ".")
    (toString ((n % 127 + 1) * 2)) (toString ((n % 127 + 1) * 2 + 1)) heq
  exact toString_succ_ne_below (n % 127) (Nat.mod_lt n (by norm_num)) hcancel

/-- **C8**: in every add-tunnel job pair, device B's SPI values are
swapped relative to device A's naming: A's local-sa carries spi `sa1`
and its remote-sa `sa2`, while B's local-sa carries spi `sa2` with A's
local-sa keys and B's remote-sa carries spi `sa1` with A's remote-sa
keys. -/
theorem C8_deviceB_spi_swapped (n : Nat) (ifA ifB : Interface) (ver : String)
    (ks : TunnelKeys) :
    ∃ pA pB ipsA ipsB,
      (prepareTunnelAddJob n ifA ifB ver ks).1 =
        [{ entity := "agent", message := "add-tunnel", params := pA }] ∧
      (prepareTunnelAddJob n ifA ifB ver ks).2 =
        [{ entity := "agent", message := "add-tunnel", params := pB }] ∧
      pA.ipsec = some ipsA ∧ pB.ipsec = some ipsB ∧
      ipsA.localSa.spi = (generateTunnelParams n).sa1 ∧
      ipsA.remoteSa.spi = (generateTunnelParams n).sa2 ∧
      ipsB.localSa = { ipsA.localSa with spi := (generateTunnelParams n).sa2 } ∧
      ipsB.remoteSa = { ipsA.remoteSa with spi := (generateTunnelParams n).sa1 } :=
  ⟨_, _, _, _, rfl, rfl, rfl, rfl, rfl, rfl, rfl, rfl⟩

/-- **C9**: a duplicate-key (11000) failure of the counter increment
is retried exactly once — a second error of any kind on the retry
surfaces the fatal allocation error — while a non-uniqueness error on
the first attempt is surfaced fatally without any retry. -/
theorem C9_increment_retry_semantics (a1 a2 : Except Nat Nat) :
    (∀ n, a1 = .ok n → tunnelIdRetry a1 a2 = (.ok n, 1)) ∧
    (a1 = .error 11000 →
      (tunnelIdRetry a1 a2).2 = 2 ∧
      (∀ n, a2 = .ok n → tunnelIdRetry a1 a2 = (.ok n, 2)) ∧
      (∀ c, a2 = .error c →
        tunnelIdRetry a1 a2 = (.error "Tunnel ID not found", 2))) ∧
    (∀ c, c ≠ 11000 → a1 = .error c →
      tunnelIdRetry a1 a2 = (.error "Tunnel ID not found", 1)) := by
  refine ⟨?_, ?_, ?_⟩
  · intro n h1
    subst h1
    rfl
  · intro h1
    subst h1
    refine ⟨?_, ?_, ?_⟩
    · cases a2 <;> rfl
    · intro n h2
      subst h2
      rfl
    · intro c h2
      subst h2
      rfl
  · intro c hc h1
    subst h1
    have : (c == 11000) = false := by simpa using hc
    simp [tunnelIdRetry, this]

/-- Witness for C9: a first duplicate-key conflict followed by a
second conflict fails fatally after exactly two attempts. -/
theorem C9_witness :
    tunnelIdRetry (.error 11000) (.error 11000) =
      (.error "Tunnel ID not found", 2) :=
  ((C9_increment_retry_semantics (.error 11000) (.error 11000)).2.1 rfl).2.2
    11000 rfl

/-- **C3**: when at least one inactive tunnel record exists for the
organization, allocation atomically claims the first such record —
setting its `isActive` to true in place — returns its number, and the
per-organization counter is not incremented (the counters component is
untouched). -/
theorem C3_reuse_inactive_before_mint (org : String) (st : Store)
    (h : ∃ t ∈ st.tunnels, inactiveOrg org t = true) :
    ∃ pre r post,
      st.tunnels = pre ++ r :: post ∧
      (∀ x ∈ pre, inactiveOrg org x = false) ∧
      r.isActive = false ∧ r.org = org ∧
      allocateTunnelNum org st =
        .ok (r.num,
          { st with tunnels := pre ++ { r with isActive := true } :: post }) ∧
      ({ st with tunnels := pre ++ { r with isActive := true } :: post }).counters
        = st.counters := by
  obtain ⟨pre, r, post, heq, hpre, hr⟩ := exists_first_match _ _ h
  have h2 := (inactiveOrg_iff org r).mp hr
  refine ⟨pre, r, post, heq, hpre, h2.1, h2.2, ?_, rfl⟩
  simp [allocateTunnelNum, claimInactive_of_found org st pre r post heq hpre hr]

/-- Witness for C3: a store holding one inactive record (number 7)
yields number 7 and an unchanged counters list. -/
theorem C3_witness :
    ∃ pre r post,
      ({ emptyStore with tunnels := [cInactiveTunnel] } : Store).tunnels =
        pre ++ r :: post ∧
      (∀ x ∈ pre, inactiveOrg "org1" x = false) ∧
      r.isActive = false ∧ r.org = "org1" ∧
      allocateTunnelNum "org1" { emptyStore with tunnels := [cInactiveTunnel] } =
        .ok (r.num,
          { { emptyStore with tunnels := [cInactiveTunnel] } with
            tunnels := pre ++ { r with isActive := true } :: post }) ∧
      ({ { emptyStore with tunnels := [cInactiveTunnel] } with
          tunnels := pre ++ { r with isActive := true } :: post }).counters
        = ({ emptyStore with tunnels := [cInactiveTunnel] } : Store).counters :=
  C3_reuse_inactive_before_mint "org1"
    { emptyStore with tunnels := [cInactiveTunnel] }
    ⟨cInactiveTunnel, by simp, rfl⟩

/-- **C2** counterexample: on a fresh organization (no counter
document, no inactive record) allocation returns 1 — the
post-increment value of the upsert-created counter — not the
pre-increment value 0 that the claim requires (`created at zero`,
`returns the pre-increment value`). -/
theorem C2_counterexample :
    allocateTunnelNum "org1" emptyStore =
      .ok (1, { emptyStore with counters := [("org1", 1)] }) ∧
    (1 : Nat) ≠ 0 :=
  ⟨rfl, by decide⟩

/-- **C2 amended**: when no inactive tunnel record exists for the
organization, allocation atomically increments the counter (the upsert
creates it holding 1 when absent) and returns the POST-increment
value; the PRE-increment value must be below 15000, and an allocation
whose pre-increment value is at or above the bound fails with the
fatal allocation error instead of returning a number. -/
theorem C2_amended_post_increment (org : String) (st : Store)
    (hNoInactive : ∀ t ∈ st.tunnels, inactiveOrg org t = false) :
    (st.counters.find? (fun c => c.1 == org) = none →
      allocateTunnelNum org st =
        .ok (1, { st with counters := st.counters ++ [(org, 1)] })) ∧
    (∀ c, st.counters.find? (fun c => c.1 == org) = some c → c.2 < 15000 →
      allocateTunnelNum org st =
        .ok (c.2 + 1,
          { st with counters :=
              st.counters.map (fun d => if d.1 == org then (d.1, c.2 + 1) else d) })) ∧
    (∀ c, st.counters.find? (fun c => c.1 == org) = some c → 15000 ≤ c.2 →
      allocateTunnelNum org st = .error "Tunnel ID not found") := by
  refine ⟨?_, ?_, ?_⟩
  · intro hfind
    simp [allocateTunnelNum, claimInactive_of_none org st hNoInactive, mintNum, hfind]
  · intro c hfind hlt
    simp [allocateTunnelNum, claimInactive_of_none org st hNoInactive, mintNum,
      hfind, hlt]
  · intro c hfind hge
    simp [allocateTunnelNum, claimInactive_of_none org st hNoInactive, mintNum,
      hfind, Nat.not_lt.mpr hge]

/-- Witness for C2 amended: a counter holding 5 yields 6; a counter at
15000 fails. -/
theorem C2_amended_witness :
    allocateTunnelNum "org1" { emptyStore with counters := [("org1", 5)] } =
      .ok (6, { emptyStore with counters := [("org1", 6)] }) ∧
    allocateTunnelNum "org1" { emptyStore with counters := [("org1", 15000)] } =
      .error "Tunnel ID not found" :=
  ⟨(C2_amended_post_increment "org1"
      { emptyStore with counters := [("org1", 5)] }
      (by intro t ht; simp [emptyStore] at ht)).2.1
      ("org1", 5) rfl (by decide),
   (C2_amended_post_increment "org1"
      { emptyStore with counters := [("org1", 15000)] }
      (by intro t ht; simp [emptyStore] at ht)).2.2
      ("org1", 15000) rfl (by decide)⟩

/-- **C6** counterexample: selecting two tunnels for deletion does not
fail — `applyTunnelDel` returns with no error at all (and the store,
jobs included, is untouched), contradicting the claimed synchronous
validation error. -/
theorem C6_counterexample :
    applyTunnelDel true [100, 101] cUser emptyStore = (emptyStore, none) := rfl

/-- **C6 amended**: a call selecting more than one tunnel (or none),
or lacking a device context, is a silent no-op: no remove job is
dispatched, no record is deactivated — the store is returned unchanged
— and no error is reported to the caller. -/
theorem C6_amended_silent_noop (devicesPresent : Bool) (tunnelIds : List Nat)
    (user : User) (st : Store)
    (h : devicesPresent = false ∨ tunnelIds.length ≠ 1) :
    applyTunnelDel devicesPresent tunnelIds user st = (st, none) := by
  rcases h with h | h
  · simp [applyTunnelDel, h]
  · have hlen : (tunnelIds.length == 1) = false := by simpa using h
    simp [applyTunnelDel, hlen]

/-- Witness for C6 amended: a call without device context is a silent
no-op. -/
theorem C6_witness :
    applyTunnelDel false [100] cUser emptyStore = (emptyStore, none) :=
  C6_amended_silent_noop false [100] cUser emptyStore (Or.inl rfl)

/-- **C10**: a well-formed completion payload naming a confirmation
flag causes `completeTunnelAdd` to update at most one tunnel record —
the first one matched by `(deviceA, deviceB, org)` in that stored
order, with no condition on `isActive` or the tunnel number — setting
only the named flag to true; every other field of that record, every
other record, and every other store component is unchanged. -/
theorem C10_completeTunnelAdd_frame (st : Store) (devA devB : Nat)
    (tgt user org : String) (hu : user ≠ "") (ho : org ≠ "")
    (htgt : tgt = "deviceAconf" ∨ tgt = "deviceBconf") :
    ∃ st2,
      completeTunnelAdd
        (some { deviceA := some devA, deviceB := some devB,
                target := some tgt, username := some user, org := some org })
        st = st2 ∧
      st2.counters = st.counters ∧ st2.jobs = st.jobs ∧
      st2.devicesColl = st.devicesColl ∧ st2.nextId = st.nextId ∧
      ((st2.tunnels = st.tunnels ∧
          ∀ t ∈ st.tunnels, connQuery devA devB org t = false) ∨
       (∃ pre r post r2,
          st.tunnels = pre ++ r :: post ∧
          (∀ x ∈ pre, connQuery devA devB org x = false) ∧
          connQuery devA devB org r = true ∧
          st2.tunnels = pre ++ r2 :: post ∧
          r2._id = r._id ∧ r2.org = r.org ∧ r2.num = r.num ∧
          r2.isActive = r.isActive ∧
          r2.deviceA = r.deviceA ∧ r2.deviceB = r.deviceB ∧
          r2.interfaceA = r.interfaceA ∧ r2.interfaceB = r.interfaceB ∧
          (tgt = "deviceAconf" →
            r2.deviceAconf = true ∧ r2.deviceBconf = r.deviceBconf) ∧
          (tgt = "deviceBconf" →
            r2.deviceBconf = true ∧ r2.deviceAconf = r.deviceAconf))) := by
  classical
  have hu' : (user == "") = false := by simpa using hu
  have ho' : (org == "") = false := by simpa using ho
  have htgt' : (tgt == "") = false := by
    rcases htgt with h | h <;> subst h <;> rfl
  by_cases hex : ∃ x ∈ st.tunnels, connQuery devA devB org x = true
  case pos =>
    obtain ⟨pre, r, post, heq, hpre, hr⟩ := exists_first_match _ _ hex
    rcases htgt with h | h
    all_goals subst h
    · refine ⟨_, rfl, ?_, ?_, ?_, ?_, Or.inr
        ⟨pre, r, post, { r with deviceAconf := true }, heq, hpre, hr, ?_,
         rfl, rfl, rfl, rfl, rfl, rfl, rfl, rfl,
         fun _ => ⟨rfl, rfl⟩, fun hc => absurd hc (by decide)⟩⟩ <;>
      simp [completeTunnelAdd, hu', ho', htgt', updateTunnelIsConnected, heq,
        findOneAndUpdateList_found _ _ pre r post hpre hr]
    · refine ⟨_, rfl, ?_, ?_, ?_, ?_, Or.inr
        ⟨pre, r, post, { r with deviceBconf := true }, heq, hpre, hr, ?_,
         rfl, rfl, rfl, rfl, rfl, rfl, rfl, rfl,
         fun hc => absurd hc (by decide), fun _ => ⟨rfl, rfl⟩⟩⟩ <;>
      simp [completeTunnelAdd, hu', ho', htgt', updateTunnelIsConnected, heq,
        findOneAndUpdateList_found _ _ pre r post hpre hr]
  case neg =>
    have hall : ∀ x ∈ st.tunnels, connQuery devA devB org x = false := by
      intro x hx
      cases hq : connQuery devA devB org x with
      | false => rfl
      | true => exact absurd ⟨x, hx, hq⟩ hex
    refine ⟨_, rfl, ?_, ?_, ?_, ?_, Or.inl ⟨?_, hall⟩⟩ <;>
    simp [completeTunnelAdd, hu', ho', htgt', updateTunnelIsConnected,
      findOneAndUpdateList_none _ _ _ hall]

/-- Witness for C10: completing side B of the concrete active tunnel
updates only its `deviceBconf` flag. -/
theorem C10_witness :
    ∃ st2,
      completeTunnelAdd
        (some { deviceA := some 1, deviceB := some 2,
                target := some "deviceBconf", username := some "admin",
                org := some "org1" })
        { emptyStore with tunnels := [cActiveTunnel] } = st2 ∧
      st2.counters = ({ emptyStore with tunnels := [cActiveTunnel] } : Store).counters ∧
      st2.jobs = ({ emptyStore with tunnels := [cActiveTunnel] } : Store).jobs ∧
      st2.devicesColl =
        ({ emptyStore with tunnels := [cActiveTunnel] } : Store).devicesColl ∧
      st2.nextId = ({ emptyStore with tunnels := [cActiveTunnel] } : Store).nextId ∧
      ((st2.tunnels = ({ emptyStore with tunnels := [cActiveTunnel] } : Store).tunnels ∧
          ∀ t ∈ ({ emptyStore with tunnels := [cActiveTunnel] } : Store).tunnels,
            connQuery 1 2 "org1" t = false) ∨
       (∃ pre r post r2,
          ({ emptyStore with tunnels := [cActiveTunnel] } : Store).tunnels =
            pre ++ r :: post ∧
          (∀ x ∈ pre, connQuery 1 2 "org1" x = false) ∧
          connQuery 1 2 "org1" r = true ∧
          st2.tunnels = pre ++ r2 :: post ∧
          r2._id = r._id ∧ r2.org = r.org ∧ r2.num = r.num ∧
          r2.isActive = r.isActive ∧
          r2.deviceA = r.deviceA ∧ r2.deviceB = r.deviceB ∧
          r2.interfaceA = r.interfaceA ∧ r2.interfaceB = r.interfaceB ∧
          ("deviceBconf" = "deviceAconf" →
            r2.deviceAconf = true ∧ r2.deviceBconf = r.deviceBconf) ∧
          ("deviceBconf" = "deviceBconf" →
            r2.deviceBconf = true ∧ r2.deviceAconf = r.deviceAconf))) :=
  C10_completeTunnelAdd_frame { emptyStore with tunnels := [cActiveTunnel] }
    1 2 "deviceBconf" "admin" "org1" (by decide) (by decide) (Or.inr rfl)

/-- If an active tunnel between the two devices exists, the
combination is skipped and the store is untouched. -/
theorem getTunnelPromise_skips (genKeys : Nat → TunnelKeys) (user org : String)
    (dA dB : Device) (ifA ifB : Interface) (st : Store)
    (hex : ∃ t ∈ st.tunnels, pairMatch dA dB org t = true) :
    getTunnelPromise genKeys user org dA dB ifA ifB st = (st, .ok .skipped) := by
  obtain ⟨t, ht, hq⟩ := hex
  have hmem : t ∈ st.tunnels.filter (pairMatch dA dB org) :=
    List.mem_filter.mpr ⟨ht, hq⟩
  have hlen : (st.tunnels.filter (pairMatch dA dB org)).length ≠ 0 := by
    intro h0
    rw [List.eq_nil_of_length_eq_zero h0] at hmem
    cases hmem
  have hb : ((st.tunnels.filter (pairMatch dA dB org)).length == 0) = false := by
    simpa using hlen
  rw [getTunnelPromise]
  simp [hb]

/-- If no active tunnel between the two devices exists, the
combination is never skipped (it creates a tunnel or rejects). -/
theorem getTunnelPromise_no_match_not_skipped (genKeys : Nat → TunnelKeys)
    (user org : String) (dA dB : Device) (ifA ifB : Interface) (st : Store)
    (hnone : ∀ t ∈ st.tunnels, pairMatch dA dB org t = false) :
    (getTunnelPromise genKeys user org dA dB ifA ifB st).2 ≠ .ok .skipped := by
  rw [getTunnelPromise]
  simp only [filter_eq_nil_of_false _ _ hnone, List.length_nil]
  cases halloc : allocateTunnelNum org st with
  | ok p => simp [halloc]
  | error m => simp [halloc]

/-- Every combination launched by the sync phase comes from one of the
enumerated pairs. -/
theorem collectTasks_mem (compatible : String → String → Bool)
    (pairs : List (Device × Device)) (c : Combo)
    (hc : c ∈ (collectTasks compatible pairs).1) :
    ∃ p ∈ pairs, p.1 = c.1 ∧ p.2 = c.2.1 := by
  induction pairs with
  | nil => cases hc
  | cons p ps ih =>
    rcases p with ⟨a, b⟩
    cases hcompat : compatible a.routerVersion b.routerVersion with
    | true =>
      rw [collectTasks, hcompat] at hc
      simp only [if_true] at hc
      rcases List.mem_append.mp hc with h | h
      · simp only [pairCombos, List.mem_flatten, List.mem_map] at h
        obtain ⟨l, ⟨ia, _, hl⟩, hcl⟩ := h
        subst hl
        rw [List.mem_map] at hcl
        obtain ⟨ib, _, hcc⟩ := hcl
        subst hcc
        exact ⟨(a, b), List.mem_cons_self _ _, rfl, rfl⟩
      · obtain ⟨q, hq, h1, h2⟩ := ih h
        exact ⟨q, List.mem_cons_of_mem _ hq, h1, h2⟩
    | false =>
      rw [collectTasks, hcompat] at hc
      simp at hc

/-- When every launched combination's device pair already has an
active tunnel, the async phase leaves the store untouched and reports
no error. -/
theorem runCombos_all_skip (genKeys : Nat → TunnelKeys) (user org : String)
    (combos : List Combo) (st : Store)
    (h : ∀ c ∈ combos, ∃ t ∈ st.tunnels, pairMatch c.1 c.2.1 org t = true) :
    runCombos genKeys user org combos st = (st, none) := by
  induction combos with
  | nil => rfl
  | cons c cs ih =>
    have hskip := getTunnelPromise_skips genKeys user org c.1 c.2.1 c.2.2.1
      c.2.2.2 st (h c (List.mem_cons_self c cs))
    rw [runCombos, hskip]
    simp [ih (fun d hd => h d (List.mem_cons_of_mem _ hd)), firstErr]

/-- **C4** counterexample: the store holds an active tunnel between
devices 1 and 2 over interfaces 10/20; the combination over
interfaces 11/21 of the same devices is nevertheless skipped, although
no active tunnel exists between THESE two interfaces — the existence
check that drives skipping is device-level, not interface-level, so
"skipped exactly when an active tunnel exists between these two
interfaces" is false. -/
theorem C4_counterexample :
    getTunnelPromise cGenKeys "admin" "org1" cDevA cDevB cIfA2 cIfB2
        { emptyStore with tunnels := [cActiveTunnel] } =
      ({ emptyStore with tunnels := [cActiveTunnel] }, .ok .skipped) ∧
    (∀ t ∈ ({ emptyStore with tunnels := [cActiveTunnel] } : Store).tunnels,
      ¬(t.isActive = true ∧ t.org = "org1" ∧
        ((t.interfaceA = cIfA2._id ∧ t.interfaceB = cIfB2._id) ∨
         (t.interfaceB = cIfA2._id ∧ t.interfaceA = cIfB2._id)))) := by
  constructor
  · rfl
  · decide

/-- **C4 amended**: a combination is skipped — resolving successfully
with the store untouched — exactly when an active tunnel already
exists in the organization between the two DEVICES (queried in either
ordering), irrespective of which interfaces that tunnel references;
consequently, re-invoking `applyTunnelAdd` on a device set whose every
pair is already connected leaves the store unchanged (idempotence, no
new tunnel records). -/
theorem C4_amended_skip_iff_device_level (genKeys : Nat → TunnelKeys)
    (user org : String) (dA dB : Device) (ifA ifB : Interface) (st : Store) :
    ((getTunnelPromise genKeys user org dA dB ifA ifB st).2 = .ok .skipped ↔
      ∃ t ∈ st.tunnels, pairMatch dA dB org t = true) ∧
    ((getTunnelPromise genKeys user org dA dB ifA ifB st).2 = .ok .skipped →
      (getTunnelPromise genKeys user org dA dB ifA ifB st).1 = st) ∧
    (∀ (compatible : String → String → Bool) (devices : List Device)
        (selectedDevices : List Nat) (u : User) (st2 : Store),
      (∀ p ∈ enumPairs (devices.filter (fun d => selectedDevices.contains d._id)),
        ∃ t ∈ st2.tunnels, pairMatch p.1 p.2 u.defaultOrg t = true) →
      (applyTunnelAdd compatible genKeys devices selectedDevices u st2).1 = st2) := by
  classical
  refine ⟨?_, ?_, ?_⟩
  · constructor
    · intro hskip
      by_contra hnex
      have hnone : ∀ t ∈ st.tunnels, pairMatch dA dB org t = false := by
        intro t ht
        cases hq : pairMatch dA dB org t with
        | false => rfl
        | true => exact absurd ⟨t, ht, hq⟩ hnex
      exact getTunnelPromise_no_match_not_skipped genKeys user org dA dB ifA ifB
        st hnone hskip
    · intro hex
      rw [getTunnelPromise_skips genKeys user org dA dB ifA ifB st hex]
  · intro hskip
    by_cases hex : ∃ t ∈ st.tunnels, pairMatch dA dB org t = true
    · rw [getTunnelPromise_skips genKeys user org dA dB ifA ifB st hex]
    · have hnone : ∀ t ∈ st.tunnels, pairMatch dA dB org t = false := by
        intro t ht
        cases hq : pairMatch dA dB org t with
        | false => rfl
        | true => exact absurd ⟨t, ht, hq⟩ hex
      exact absurd hskip
        (getTunnelPromise_no_match_not_skipped genKeys user org dA dB ifA ifB st hnone)
  · intro compatible devices selectedDevices u st2 hall
    rw [applyTunnelAdd]
    by_cases hlen :
        2 ≤ (devices.filter (fun d => selectedDevices.contains d._id)).length
    · have hrun := runCombos_all_skip genKeys u.username u.defaultOrg
        (collectTasks compatible
          (enumPairs (devices.filter (fun d => selectedDevices.contains d._id)))).1
        st2
        (fun c hc => by
          obtain ⟨p, hp, h1, h2⟩ := collectTasks_mem compatible _ c hc
          obtain ⟨t, ht, hq⟩ := hall p hp
          exact ⟨t, ht, by rw [← h1, ← h2]; exact hq⟩)
      rw [if_pos hlen]
      show (runCombos genKeys u.username u.defaultOrg
        (collectTasks compatible
          (enumPairs (devices.filter (fun d => selectedDevices.contains d._id)))).1
        st2).1 = st2
      rw [hrun]
    · rw [if_neg hlen]

/-- Witness for C4 amended: with the concrete active tunnel present,
the 11/21 interface combination is reported skipped via the
device-level criterion, and re-adding the connected pair leaves the
store unchanged. -/
theorem C4_witness :
    (getTunnelPromise cGenKeys "admin" "org1" cDevA cDevB cIfA2 cIfB2
        { emptyStore with tunnels := [cActiveTunnel] }).2 = .ok .skipped ∧
    (applyTunnelAdd allCompatible cGenKeys [cDevA, cDevB] [1, 2] cUser
        { emptyStore with tunnels := [cActiveTunnel] }).1 =
      { emptyStore with tunnels := [cActiveTunnel] } :=
  ⟨(C4_amended_skip_iff_device_level cGenKeys "admin" "org1" cDevA cDevB cIfA2
      cIfB2 { emptyStore with tunnels := [cActiveTunnel] }).1.mpr
      ⟨cActiveTunnel, by simp, by decide⟩,
   (C4_amended_skip_iff_device_level cGenKeys "admin" "org1" cDevA cDevB cIfA2
      cIfB2 { emptyStore with tunnels := [cActiveTunnel] }).2.2
      allCompatible [cDevA, cDevB] [1, 2] cUser
      { emptyStore with tunnels := [cActiveTunnel] }
      (by decide)⟩

/-- When some enumerated pair is incompatible, the sync phase launches
exactly the combinations of the pairs preceding the first incompatible
one, and throws the version-mismatch error. -/
theorem collectTasks_bad (compatible : String → String → Bool)
    (pairs : List (Device × Device))
    (hbad : ∃ p ∈ pairs, compatible p.1.routerVersion p.2.routerVersion = false) :
    collectTasks compatible pairs =
      (((pairs.takeWhile
          (fun p => compatible p.1.routerVersion p.2.routerVersion)).map
          (fun p => pairCombos p.1 p.2)).flatten,
       some "Cannot create tunnels between devices with mismatching router versions") := by
  induction pairs with
  | nil => simp at hbad
  | cons p ps ih =>
    rcases p with ⟨a, b⟩
    cases hc : compatible a.routerVersion b.routerVersion with
    | true =>
      have hbad' : ∃ q ∈ ps,
          compatible q.1.routerVersion q.2.routerVersion = false := by
        rcases hbad with ⟨q, hq, hqc⟩
        rcases List.mem_cons.mp hq with hq0 | hq'
        · subst hq0
          rw [hqc] at hc
          cases hc
        · exact ⟨q, hq', hqc⟩
      rw [collectTasks, hc]
      simp only [if_true]
      rw [ih hbad']
      simp [List.takeWhile_cons, hc]
    | false =>
      rw [collectTasks, hc]
      simp [List.takeWhile_cons, hc]

/-- **C5** counterexample: selecting three devices where the first
pair (A,B) is compatible but device C's router version mismatches, the
batch fails with the synchronous version-mismatch error — yet the
tunnel for the earlier pair (A,B) is still created (one record, two
queued jobs): state IS mutated for pairs examined before the
mismatching one, contrary to the claim. -/
theorem C5_counterexample :
    (applyTunnelAdd eqCompatible cGenKeys [cDevA, cDevB, cDevC] [1, 2, 3]
        cUser emptyStore).2 =
      some "Cannot create tunnels between devices with mismatching router versions" ∧
    (applyTunnelAdd eqCompatible cGenKeys [cDevA, cDevB, cDevC] [1, 2, 3]
        cUser emptyStore).1.tunnels.length = 1 ∧
    (applyTunnelAdd eqCompatible cGenKeys [cDevA, cDevB, cDevC] [1, 2, 3]
        cUser emptyStore).1.jobs.length = 2 :=
  ⟨rfl, rfl, rfl⟩

/-- **C5 amended**: a version-incompatible pair fails the whole batch
with the synchronous mismatch error, and nothing is launched for the
mismatching pair or any pair after it in the iteration order — but the
interface combinations of the pairs examined earlier were already
launched, and their allocations, records and jobs still reach the
store (the eventual store is exactly the effect of the prefix of pairs
before the first incompatible one). -/
theorem C5_amended_mismatch_after_prefix
    (compatible : String → String → Bool) (genKeys : Nat → TunnelKeys)
    (devices : List Device) (selectedDevices : List Nat) (user : User)
    (st : Store)
    (h2 : 2 ≤ (devices.filter (fun d => selectedDevices.contains d._id)).length)
    (hbad : ∃ p ∈ enumPairs (devices.filter (fun d => selectedDevices.contains d._id)),
      compatible p.1.routerVersion p.2.routerVersion = false) :
    (applyTunnelAdd compatible genKeys devices selectedDevices user st).2 =
      some "Cannot create tunnels between devices with mismatching router versions" ∧
    (applyTunnelAdd compatible genKeys devices selectedDevices user st).1 =
      (runCombos genKeys user.username user.defaultOrg
        ((((enumPairs (devices.filter (fun d => selectedDevices.contains d._id))).takeWhile
            (fun p => compatible p.1.routerVersion p.2.routerVersion)).map
            (fun p => pairCombos p.1 p.2)).flatten) st).1 := by
  have hct := collectTasks_bad compatible
    (enumPairs (devices.filter (fun d => selectedDevices.contains d._id))) hbad
  constructor
  · rw [applyTunnelAdd, if_pos h2]
    show firstErr
        (collectTasks compatible
          (enumPairs (devices.filter (fun d => selectedDevices.contains d._id)))).2
        (runCombos genKeys user.username user.defaultOrg
          (collectTasks compatible
            (enumPairs (devices.filter
              (fun d => selectedDevices.contains d._id)))).1 st).2 =
      some "Cannot create tunnels between devices with mismatching router versions"
    rw [hct]
    rfl
  · rw [applyTunnelAdd, if_pos h2]
    show (runCombos genKeys user.username user.defaultOrg
        (collectTasks compatible
          (enumPairs (devices.filter
            (fun d => selectedDevices.contains d._id)))).1 st).1 =
      (runCombos genKeys user.username user.defaultOrg
        ((((enumPairs (devices.filter (fun d => selectedDevices.contains d._id))).takeWhile
            (fun p => compatible p.1.routerVersion p.2.routerVersion)).map
            (fun p => pairCombos p.1 p.2)).flatten) st).1
    rw [hct]

/-- Witness for C5 amended: the concrete three-device batch fails with
the mismatch error and its eventual store is the effect of the prefix
pair (A,B) alone. -/
theorem C5_witness :
    (applyTunnelAdd eqCompatible cGenKeys [cDevA, cDevB, cDevC] [1, 2, 3]
        cUser emptyStore).2 =
      some "Cannot create tunnels between devices with mismatching router versions" ∧
    (applyTunnelAdd eqCompatible cGenKeys [cDevA, cDevB, cDevC] [1, 2, 3]
        cUser emptyStore).1 =
      (runCombos cGenKeys cUser.username cUser.defaultOrg
        ((((enumPairs ([cDevA, cDevB, cDevC].filter
            (fun d => [1, 2, 3].contains d._id))).takeWhile
            (fun p => eqCompatible p.1.routerVersion p.2.routerVersion)).map
            (fun p => pairCombos p.1 p.2)).flatten) emptyStore).1 :=
  C5_amended_mismatch_after_prefix eqCompatible cGenKeys
    [cDevA, cDevB, cDevC] [1, 2, 3] cUser emptyStore (by decide) (by decide)

end Flexi
